import Mathlib

set_option maxHeartbeats 1000000

/-
Verification of the LocalShare session/file lifecycle registry (src/app.py).

The embedding models:
  * SESSIONS, the in-memory registry, as an association list from session id
    to session record (a Python dict has unique keys; uniqueness of keys is
    carried as a hypothesis where a proof needs it);
  * storage paths as lists of components (Path objects), the disk as the list
    of paths of the backing objects that currently exist;
  * time.time() as a natural number supplied by the caller of each operation;
  * each request handler as a pure function from state to result and state,
    where one handler invocation between two lock-protected steps is one
    atomic step of an interleaving.
-/

/-- SESSION_TTL_SECONDS from app.py: sessions auto-delete after this period
of inactivity (60 * 60). -/
def SESSION_TTL_SECONDS : Nat := 60 * 60

/-- CLEANUP_INTERVAL_SECONDS from app.py: period of the background cleaner. -/
def CLEANUP_INTERVAL_SECONDS : Nat := 60

/-- SESSION_ID_ALPHABET from app.py: allowed session id characters, no I/O/1/0. -/
def SESSION_ID_ALPHABET : String := "ABCDEFGHJKLMNPQRSTUVWXYZ23456789"

/-- One element of a session's "files" list in app.py. -/
structure FileEntry where
  id : String
  name : String
  saved_name : String
  size : Nat
  downloaded : Bool
deriving Repr, DecidableEq

/-- One value of the SESSIONS dict in app.py; the session directory is kept
as path components. -/
structure Session where
  id : String
  dir : List String
  created_at : Nat
  last_activity : Nat
  files : List FileEntry
deriving Repr, DecidableEq

/-- The shared mutable state: the SESSIONS registry plus the set of backing
objects currently present on the storage medium. -/
structure AppState where
  sessions : List (String × Session)
  disk : List (List String)
deriving Repr, DecidableEq

/-- Dict lookup SESSIONS.get(k): first pair with the key. -/
def lookupSession : List (String × Session) → String → Option Session
  | [], _ => none
  | p :: rest, k => if p.1 = k then some p.2 else lookupSession rest k

/-- In-place mutation of the entry under key k (a no-op when the key is
absent), as Python's dict element assignment does. -/
def updateSession : List (String × Session) → String → (Session → Session) → List (String × Session)
  | [], _, _ => []
  | p :: rest, k, g => (if p.1 = k then (p.1, g p.2) else p) :: updateSession rest k g

/-- Generic list prefix test (used for str.startswith on rendered paths and
for path containment on components). -/
def leadsWith {α : Type} [BEq α] : List α → List α → Bool
  | [], _ => true
  | _ :: _, [] => false
  | a :: as, b :: bs => a == b && leadsWith as bs

/-- Path.resolve() on an absolute path given by components: "." and empty
components vanish and ".." removes the last kept component (symlinks are out
of scope of the model). -/
def resolvePath (comps : List String) : List String :=
  comps.foldl
    (fun acc c =>
      if c = "" then acc
      else if c = "." then acc
      else if c = ".." then acc.dropLast
      else acc ++ [c])
    []

/-- str(path) for an absolute path: "/" before every component. -/
def renderPath (comps : List String) : String :=
  comps.foldl (fun acc c => acc ++ "/" ++ c) ""

/-- Python str.startswith: the second argument is a prefix of the first. -/
def pyStartswith (s pre : String) : Bool := leadsWith pre.toList s.toList

/-- safe_join from app.py: join base with the parts, resolve, and accept the
result iff its rendering starts with the rendering of the resolved base;
otherwise abort(400, "Invalid file path"), modelled as none. -/
def safe_join (base : List String) (parts : List String) : Option (List String) :=
  let final := resolvePath (base ++ parts)
  if pyStartswith (renderPath final) (renderPath (resolvePath base)) then some final
  else none

/-- touch_session from app.py: under the lock, set last_activity to now if the
session id is a key of SESSIONS; otherwise do nothing. -/
def touch_session (session_id : String) (now : Nat) (st : AppState) : AppState :=
  if (lookupSession st.sessions session_id).isSome then
    { st with
      sessions := updateSession st.sessions session_id
        (fun s => { s with last_activity := now }) }
  else st

/-- delete_session from app.py: SESSIONS.pop(session_id, None) under the lock,
then shutil.rmtree of the popped session's directory, which removes every
backing object under that directory. The popped session is returned alongside
the new state. -/
def delete_session (session_id : String) (st : AppState) : AppState × Option Session :=
  match lookupSession st.sessions session_id with
  | none => (st, none)
  | some s =>
      ({ sessions := st.sessions.filter (fun p => decide (p.1 ≠ session_id)),
         disk := st.disk.filter (fun q => !(leadsWith s.dir q)) },
       some s)

/-- The snapshot taken by one cycle of cleanup_expired_sessions: the ids whose
last_activity is older than the TTL at time now. -/
def sweepSelect (now : Nat) (l : List (String × Session)) : List String :=
  (l.filter (fun p => decide (SESSION_TTL_SECONDS < now - p.2.last_activity))).map Prod.fst

/-- One cycle of cleanup_expired_sessions from app.py: snapshot the expired
ids under the lock, then delete_session each of them. -/
def cleanup_cycle (now : Nat) (st : AppState) : AppState :=
  (sweepSelect now st.sessions).foldl (fun s sid => (delete_session sid s).1) st

/-- The characters of SESSION_ID_ALPHABET. -/
def alphaChars : List Char := SESSION_ID_ALPHABET.toList

/-- random.choice(SESSION_ID_ALPHABET): the random draw is modelled as an
arbitrary natural number reduced modulo the alphabet size. -/
def randomChoice (i : Nat) : Char :=
  alphaChars.get ⟨i % alphaChars.length, Nat.mod_lt i (by decide)⟩

/-- One candidate code built from one run of the inner loop of
generate_session_id. -/
def mkCode (draws : List Nat) : String := String.mk (draws.map randomChoice)

/-- generate_session_id from app.py: repeatedly draw a candidate code and,
under the lock, return the first one that is not already a key of SESSIONS.
The stream of random draws is an explicit argument and bounds the retries. -/
def generate_session_id (sessions : List (String × Session)) : List (List Nat) → Option String
  | [] => none
  | draws :: rest =>
      match lookupSession sessions (mkCode draws) with
      | none => some (mkCode draws)
      | some _ => generate_session_id sessions rest

/-- One element of the JSON "files" array produced by api_list_files. -/
structure FileView where
  id : String
  name : String
  size : Nat
  downloaded : Bool
deriving Repr, DecidableEq

/-- The fields api_list_files copies out of a file entry. -/
def toView (f : FileEntry) : FileView :=
  { id := f.id, name := f.name, size := f.size, downloaded := f.downloaded }

/-- api_list_files from app.py: 404 (none) for an unknown session via
get_session; otherwise touch the session and report exactly those file entries
whose backing object still exists on disk. -/
def api_list_files (session_id : String) (now : Nat) (st : AppState) :
    Option (List FileView) × AppState :=
  match lookupSession st.sessions session_id with
  | none => (none, st)
  | some s =>
      (some ((s.files.filter
                (fun f => decide ((s.dir ++ [f.saved_name]) ∈ st.disk))).map toView),
       touch_session session_id now st)

/-- Result of one download_file request, before the response is closed. -/
inductive DlOutcome where
  | notFound (description : String)
  | invalidPath (description : String)
  | ok (path : List String)
deriving Repr, DecidableEq

/-- download_file from app.py: look up the session (abort 404 if absent), find
the file entry by id (abort 404 if absent), safe_join the saved name (abort
400 on violation), check that the backing object exists (abort 404 if not),
then open the stream and touch the session. The only state change made
before the response is closed is the touch; the cleanup runs separately when
the response closes. -/
def download_file (session_id file_id : String) (now : Nat) (st : AppState) :
    DlOutcome × AppState :=
  match lookupSession st.sessions session_id with
  | none => (.notFound "Session not found", st)
  | some s =>
      match s.files.find? (fun f => f.id == file_id) with
      | none => (.notFound "File not found", st)
      | some f =>
          match safe_join s.dir [f.saved_name] with
          | none => (.invalidPath "Invalid file path", st)
          | some p =>
              if p ∈ st.disk then
                (.ok p, touch_session session_id now st)
              else (.notFound "File already downloaded or missing", st)

/-- The _cleanup closure that download_file registers with resp.call_on_close:
unlink the delivered path, then, under the lock, drop every entry with this
file id from the session's file list and refresh last_activity. The session
itself stays registered. -/
def cleanup_on_close (session_id file_id : String) (p : List String) (now : Nat)
    (st : AppState) : AppState :=
  { sessions := updateSession st.sessions session_id
      (fun s => { s with
        files := s.files.filter (fun f => decide (f.id ≠ file_id)),
        last_activity := now }),
    disk := st.disk.filter (fun q => decide (q ≠ p)) }

/-- The 404 error handler registered in app.py: it ignores the abort
description and returns a fixed body, JSON or the rendered 404 template,
chosen only by the request's accept header. -/
def handle_not_found (acceptsJsonOnly : Bool) : Nat × String :=
  if acceptsJsonOnly then (404, "Not found") else (404, "404.html")

/-- Whether a download outcome is one of the abort(404) exits. -/
def isNotFound : DlOutcome → Bool
  | .notFound _ => true
  | _ => false

/-- The response the client observes for a download outcome: every 404 goes
through handle_not_found (description dropped); a 400 keeps Flask's default
body with the description; success returns the stream of the opened path. -/
def observedResponse (acceptsJsonOnly : Bool) : DlOutcome → Nat × String
  | .notFound _ => handle_not_found acceptsJsonOnly
  | .invalidPath d => (400, d)
  | .ok p => (200, renderPath p)

/-- A concrete uploaded file used by witnesses. -/
def exFile : FileEntry :=
  { id := "f1", name := "report.pdf", saved_name := "a1b2.pdf", size := 10,
    downloaded := false }

/-- A concrete session holding exFile. -/
def exSession : Session :=
  { id := "ABCDEF", dir := ["tmp", "sessions", "ABCDEF"], created_at := 0,
    last_activity := 0, files := [exFile] }

/-- A concrete registry state: one session, its backing object on disk. -/
def exState : AppState :=
  { sessions := [("ABCDEF", exSession)],
    disk := [["tmp", "sessions", "ABCDEF", "a1b2.pdf"]] }

/-- C1: the claim fails on the code. download_file makes no state change
before the response closes other than refreshing last_activity: there is no
Available-to-Delivering mark and no lock spans the existence check and the
opening of the stream. In the interleaving in which two requests for the same
session and file id both execute their handler before either response closes,
both open the byte stream; the second does not observe NotFound, so the same
file is served twice. The third conjunct exhibits that the first request's
pre-close state change is only the touch. -/
theorem C1_concurrent_download_not_exclusive :
    (download_file "ABCDEF" "f1" 1 exState).1
        = .ok ["tmp", "sessions", "ABCDEF", "a1b2.pdf"]
    ∧ (download_file "ABCDEF" "f1" 2 ((download_file "ABCDEF" "f1" 1 exState).2)).1
        = .ok ["tmp", "sessions", "ABCDEF", "a1b2.pdf"]
    ∧ (download_file "ABCDEF" "f1" 1 exState).2
        = { exState with sessions := [("ABCDEF", { exSession with last_activity := 1 })] } := by
  refine ⟨?_, ?_, ?_⟩ <;> decide

/-- C3: the claim fails on the code. safe_join compares rendered paths with
str.startswith and no trailing separator, so a resolved path that escapes
into a sibling directory whose name extends the root's name as a string
prefix is accepted: with root /tmp/sessions the component sequence
"..", "sessionsEvil", "secret.txt" resolves to /tmp/sessionsEvil/secret.txt,
which is outside the root (the root's components are not a prefix of its
components), yet safe_join silently returns it instead of failing. -/
theorem C3_safe_join_sibling_escape :
    safe_join ["tmp", "sessions"] ["..", "sessionsEvil", "secret.txt"]
        = some ["tmp", "sessionsEvil", "secret.txt"]
    ∧ leadsWith (resolvePath ["tmp", "sessions"])
        ["tmp", "sessionsEvil", "secret.txt"] = false := by
  refine ⟨?_, ?_⟩ <;> decide

/-- Looking up the updated key yields the mapped value. -/
theorem lookupSession_update_self (l : List (String × Session)) (k : String)
    (g : Session → Session) :
    lookupSession (updateSession l k g) k = (lookupSession l k).map g := by
  induction l with
  | nil => rfl
  | cons p rest ih =>
      by_cases h : p.1 = k
      · simp [updateSession, lookupSession, h]
      · simp [updateSession, lookupSession, h, ih]

/-- Updating one key leaves every other key's binding unchanged. -/
theorem lookupSession_update_other (l : List (String × Session)) (k k2 : String)
    (g : Session → Session) (h : k2 ≠ k) :
    lookupSession (updateSession l k g) k2 = lookupSession l k2 := by
  induction l with
  | nil => rfl
  | cons p rest ih =>
      by_cases hp : p.1 = k
      · have hk : ¬ (k = k2) := fun hc => h hc.symm
        simp [updateSession, lookupSession, hp, hk, ih]
      · by_cases hp2 : p.1 = k2
        · simp [updateSession, lookupSession, hp, hp2, h]
        · simp [updateSession, lookupSession, hp, hp2, ih]

/-- Updating a binding never changes the key set. -/
theorem updateSession_keys (l : List (String × Session)) (k : String)
    (g : Session → Session) :
    (updateSession l k g).map Prod.fst = l.map Prod.fst := by
  induction l with
  | nil => rfl
  | cons p rest ih =>
      by_cases h : p.1 = k
      · simp [updateSession, h, ih]
      · simp [updateSession, h, ih]

/-- Dropping every pair carrying key k makes k unbound. -/
theorem lookupSession_filter_self (l : List (String × Session)) (k : String) :
    lookupSession (l.filter (fun p => decide (p.1 ≠ k))) k = none := by
  induction l with
  | nil => rfl
  | cons p rest ih =>
      by_cases h : p.1 = k
      · simpa [List.filter, h] using ih
      · simpa [List.filter, h, lookupSession] using ih

/-- Dropping the pairs carrying key k leaves every other key's binding
unchanged. -/
theorem lookupSession_filter_other (l : List (String × Session)) (k k2 : String)
    (h : k2 ≠ k) :
    lookupSession (l.filter (fun p => decide (p.1 ≠ k))) k2 = lookupSession l k2 := by
  induction l with
  | nil => rfl
  | cons p rest ih =>
      simp only [decide_not] at ih
      by_cases hp : p.1 = k
      · have hk : ¬ (k = k2) := fun hc => h hc.symm
        simp [List.filter_cons, lookupSession, hp, hk, ih]
      · by_cases hp2 : p.1 = k2
        · simp [List.filter_cons, lookupSession, hp, hp2, h]
        · simp [List.filter_cons, lookupSession, hp, hp2, ih]

/-- After delete_session, the deleted id is unbound. -/
theorem delete_session_lookup_self (sid : String) (st : AppState) :
    lookupSession ((delete_session sid st).1).sessions sid = none := by
  unfold delete_session
  cases h : lookupSession st.sessions sid with
  | none => simpa using h
  | some s => simpa using lookupSession_filter_self st.sessions sid

/-- delete_session leaves every other id's binding unchanged. -/
theorem delete_session_lookup_other (sid sid2 : String) (st : AppState)
    (h : sid2 ≠ sid) :
    lookupSession ((delete_session sid st).1).sessions sid2
      = lookupSession st.sessions sid2 := by
  unfold delete_session
  cases hl : lookupSession st.sessions sid with
  | none => simp
  | some s => simpa using lookupSession_filter_other st.sessions sid sid2 h

/-- Folding delete_session over a list of ids removes exactly those ids'
bindings. -/
theorem lookup_foldl_delete (L : List String) (st : AppState) (sid : String) :
    lookupSession ((L.foldl (fun s i => (delete_session i s).1) st).sessions) sid
      = if sid ∈ L then none else lookupSession st.sessions sid := by
  induction L generalizing st with
  | nil => simp
  | cons i rest ih =>
      simp only [List.foldl_cons]
      rw [ih]
      by_cases hmem : sid ∈ rest
      · simp [hmem]
      · by_cases hi : sid = i
        · subst hi
          simp [hmem, delete_session_lookup_self]
        · simp [hmem, hi, delete_session_lookup_other i sid st hi]

/-- A successful lookup names a pair of the list. -/
theorem lookupSession_mem (l : List (String × Session)) (k : String) (v : Session)
    (h : lookupSession l k = some v) : (k, v) ∈ l := by
  induction l with
  | nil => simp [lookupSession] at h
  | cons p rest ih =>
      obtain ⟨a, b⟩ := p
      by_cases hp : a = k
      · subst hp
        simp [lookupSession] at h
        rw [← h]
        exact List.mem_cons_self _ _
      · simp [lookupSession, hp] at h
        exact List.mem_cons_of_mem _ (ih h)

/-- With pairwise distinct keys, membership determines the lookup. -/
theorem mem_lookupSession (l : List (String × Session)) (k : String) (v : Session)
    (hnd : (l.map Prod.fst).Nodup) (h : (k, v) ∈ l) :
    lookupSession l k = some v := by
  induction l with
  | nil => simp at h
  | cons p rest ih =>
      simp only [List.map_cons, List.nodup_cons] at hnd
      rcases List.mem_cons.mp h with hh | hh
      · cases p
        simp_all [lookupSession]
      · have hk : k ∈ rest.map Prod.fst := List.mem_map.mpr ⟨(k, v), hh, rfl⟩
        have hp : ¬ p.1 = k := fun hc => hnd.1 (hc ▸ hk)
        simp [lookupSession, hp, ih hnd.2 hh]

/-- Membership in the sweeper's snapshot. -/
theorem mem_sweepSelect (now : Nat) (l : List (String × Session)) (sid : String) :
    sid ∈ sweepSelect now l
      ↔ ∃ v, (sid, v) ∈ l ∧ SESSION_TTL_SECONDS < now - v.last_activity := by
  simp only [sweepSelect, List.mem_map, List.mem_filter, decide_eq_true_eq]
  constructor
  · rintro ⟨p, ⟨hmem, hexp⟩, hfst⟩
    refine ⟨p.2, ?_, hexp⟩
    rw [← hfst]
    exact hmem
  · rintro ⟨v, hmem, hexp⟩
    exact ⟨(sid, v), ⟨hmem, hexp⟩, rfl⟩

/-- C7: touch_session updates the session's last_activity to the current time
when the session exists, leaving its other fields, every other session, the
key set and the disk unchanged; when the session no longer exists it is a
silent no-op: it raises nothing, creates no session, and returns the
registry unchanged. -/
theorem C7_touch_session (st : AppState) (sid : String) (now : Nat) :
    (lookupSession st.sessions sid = none → touch_session sid now st = st)
    ∧ (∀ s, lookupSession st.sessions sid = some s →
        lookupSession (touch_session sid now st).sessions sid
            = some { s with last_activity := now }
        ∧ (touch_session sid now st).disk = st.disk
        ∧ (touch_session sid now st).sessions.map Prod.fst = st.sessions.map Prod.fst
        ∧ ∀ sid2, sid2 ≠ sid →
            lookupSession (touch_session sid now st).sessions sid2
              = lookupSession st.sessions sid2) := by
  constructor
  · intro h
    simp [touch_session, h]
  · intro s hs
    have hsome : (lookupSession st.sessions sid).isSome = true := by rw [hs]; rfl
    refine ⟨?_, ?_, ?_, ?_⟩
    · simp [touch_session, hsome, lookupSession_update_self, hs]
    · simp [touch_session, hsome]
    · simp [touch_session, hsome, updateSession_keys]
    · intro sid2 h2
      simp [touch_session, hsome, lookupSession_update_other _ _ _ _ h2]

/-- C7 witness: touching a vanished id leaves the concrete state untouched,
and touching a live id sets exactly its last_activity. -/
theorem C7_touch_session_witness :
    touch_session "ZZZZZZ" 7 exState = exState
    ∧ lookupSession (touch_session "ABCDEF" 7 exState).sessions "ABCDEF"
        = some { exSession with last_activity := 7 } :=
  ⟨(C7_touch_session exState "ZZZZZZ" 7).1 (by decide),
   ((C7_touch_session exState "ABCDEF" 7).2 exSession (by decide)).1⟩

/-- C6: delete_session pops the whole session from the registry in one
lock-protected step, handing back the popped session with its remaining file
entries for backing-object cleanup (the objects under its directory are
removed from disk); every other id keeps its binding; and it is idempotent:
deleting an absent id returns an empty result without error and changes
nothing, and a second delete of the same id returns an empty result and
leaves the state produced by the first delete unchanged. -/
theorem C6_delete_session (st : AppState) (sid : String) :
    (delete_session sid st).2 = lookupSession st.sessions sid
    ∧ lookupSession ((delete_session sid st).1).sessions sid = none
    ∧ (lookupSession st.sessions sid = none → delete_session sid st = (st, none))
    ∧ delete_session sid ((delete_session sid st).1) = ((delete_session sid st).1, none)
    ∧ (∀ sid2, sid2 ≠ sid →
        lookupSession ((delete_session sid st).1).sessions sid2
          = lookupSession st.sessions sid2)
    ∧ (∀ s, (delete_session sid st).2 = some s →
        ∀ q ∈ ((delete_session sid st).1).disk, leadsWith s.dir q = false) := by
  refine ⟨?_, delete_session_lookup_self sid st, ?_, ?_,
    fun sid2 h => delete_session_lookup_other sid sid2 st h, ?_⟩
  · cases h : lookupSession st.sessions sid with
    | none => simp [delete_session, h]
    | some s => simp [delete_session, h]
  · intro h
    simp [delete_session, h]
  · have h0 := delete_session_lookup_self sid st
    rw [delete_session, h0]
  · intro s hs q hq
    cases h : lookupSession st.sessions sid with
    | none => simp [delete_session, h] at hs
    | some s0 =>
        simp only [delete_session, h] at hs hq
        simp only [Option.some.injEq] at hs
        subst hs
        have := (List.mem_filter.mp hq).2
        simpa using this

/-- C6 witness: deleting the concrete session pops it together with its file
entry, and a second delete of the same id is an empty no-op on the resulting
state. -/
theorem C6_delete_session_witness :
    (delete_session "ABCDEF" exState).2 = some exSession
    ∧ delete_session "ABCDEF" ((delete_session "ABCDEF" exState).1)
        = ((delete_session "ABCDEF" exState).1, none) :=
  ⟨((C6_delete_session exState "ABCDEF").1).trans (by decide),
   (C6_delete_session exState "ABCDEF").2.2.2.1⟩

/-- C4: a sweeper cycle at time now deletes a registered session exactly when
now - last_activity exceeds the TTL (default 3600 seconds, with a 60-second
default period): a session still within the TTL window survives the cycle,
and for cycles run at times t0, t0+interval, t0+2*interval, ... some cycle no
later than one interval after the session's expiry time deletes it. -/
theorem C4_sweeper_exact_and_timely (st : AppState)
    (hnd : (st.sessions.map Prod.fst).Nodup)
    (sid : String) (s : Session) (hs : lookupSession st.sessions sid = some s) :
    SESSION_TTL_SECONDS = 3600 ∧ CLEANUP_INTERVAL_SECONDS = 60
    ∧ (∀ now, lookupSession (cleanup_cycle now st).sessions sid = none
        ↔ SESSION_TTL_SECONDS < now - s.last_activity)
    ∧ (∀ t0 interval, 0 < interval → t0 ≤ s.last_activity + SESSION_TTL_SECONDS →
        ∃ k, t0 + k * interval ≤ s.last_activity + SESSION_TTL_SECONDS + interval
          ∧ lookupSession (cleanup_cycle (t0 + k * interval) st).sessions sid = none) := by
  have hdel : ∀ now, lookupSession (cleanup_cycle now st).sessions sid = none
      ↔ SESSION_TTL_SECONDS < now - s.last_activity := by
    intro now
    have hiff : sid ∈ sweepSelect now st.sessions
        ↔ SESSION_TTL_SECONDS < now - s.last_activity := by
      rw [mem_sweepSelect]
      constructor
      · rintro ⟨v, hv, hexp⟩
        have hv2 : v = s :=
          Option.some.inj ((mem_lookupSession _ _ _ hnd hv).symm.trans hs)
        rwa [hv2] at hexp
      · intro hexp
        exact ⟨s, lookupSession_mem _ _ _ hs, hexp⟩
    unfold cleanup_cycle
    rw [lookup_foldl_delete]
    by_cases hmem : sid ∈ sweepSelect now st.sessions
    · rw [if_pos hmem]
      exact iff_of_true rfl (hiff.mp hmem)
    · rw [if_neg hmem, hs]
      exact iff_of_false (by simp) (fun hexp => hmem (hiff.mpr hexp))
  refine ⟨rfl, rfl, hdel, ?_⟩
  intro t0 interval hpos ht0
  refine ⟨(s.last_activity + SESSION_TTL_SECONDS - t0) / interval + 1, ?_, ?_⟩
  · have h1 : (s.last_activity + SESSION_TTL_SECONDS - t0) / interval * interval
        ≤ s.last_activity + SESSION_TTL_SECONDS - t0 := Nat.div_mul_le_self _ _
    rw [Nat.succ_mul]
    generalize hA :
      (s.last_activity + SESSION_TTL_SECONDS - t0) / interval * interval = A at h1 ⊢
    omega
  · refine (hdel _).mpr ?_
    have hqr := Nat.div_add_mod (s.last_activity + SESSION_TTL_SECONDS - t0) interval
    have hr : (s.last_activity + SESSION_TTL_SECONDS - t0) % interval < interval :=
      Nat.mod_lt _ hpos
    rw [Nat.mul_comm] at hqr
    rw [Nat.succ_mul]
    generalize hA :
      (s.last_activity + SESSION_TTL_SECONDS - t0) / interval * interval = A at hqr ⊢
    omega

/-- C4 witness: the concrete session (last activity 0) survives a cycle run
within the TTL and is gone from a cycle run one interval past expiry. -/
theorem C4_sweeper_exact_and_timely_witness :
    SESSION_TTL_SECONDS = 3600 ∧ CLEANUP_INTERVAL_SECONDS = 60
    ∧ (∀ now, lookupSession (cleanup_cycle now exState).sessions "ABCDEF" = none
        ↔ SESSION_TTL_SECONDS < now - exSession.last_activity)
    ∧ (∀ t0 interval, 0 < interval →
        t0 ≤ exSession.last_activity + SESSION_TTL_SECONDS →
        ∃ k, t0 + k * interval
            ≤ exSession.last_activity + SESSION_TTL_SECONDS + interval
          ∧ lookupSession (cleanup_cycle (t0 + k * interval) exState).sessions "ABCDEF"
              = none) :=
  C4_sweeper_exact_and_timely exState (by decide) "ABCDEF" exSession (by decide)

/-- C5: whenever generate_session_id returns a code, that code has exactly 6
characters, each drawn from the 32-character alphabet with no visually
ambiguous characters (no I, O, 1, 0), and — the check performed under the
registry lock, retrying on collision — the code is not a key of the live
registry at the moment it is returned, so it cannot collide with any
concurrently live session's id. -/
theorem C5_generate_session_id (sessions : List (String × Session))
    (stream : List (List Nat)) (code : String)
    (hlen : ∀ draws ∈ stream, draws.length = 6)
    (h : generate_session_id sessions stream = some code) :
    code.length = 6
    ∧ (∀ c ∈ code.toList, c ∈ alphaChars)
    ∧ lookupSession sessions code = none
    ∧ alphaChars.length = 32 ∧ alphaChars.Nodup
    ∧ 'I' ∉ alphaChars ∧ 'O' ∉ alphaChars ∧ '1' ∉ alphaChars ∧ '0' ∉ alphaChars := by
  induction stream with
  | nil => simp [generate_session_id] at h
  | cons draws rest ih =>
      cases hl : lookupSession sessions (mkCode draws) with
      | none =>
          simp only [generate_session_id, hl, Option.some.injEq] at h
          subst h
          refine ⟨?_, ?_, hl, by decide, by decide, by decide, by decide,
            by decide, by decide⟩
          · have hm : (mkCode draws).length = (draws.map randomChoice).length := rfl
            rw [hm, List.length_map]
            exact hlen draws (List.mem_cons_self _ _)
          · intro c hc
            have hc2 : c ∈ draws.map randomChoice := hc
            rcases List.mem_map.mp hc2 with ⟨i, _, hi⟩
            rw [← hi]
            unfold randomChoice
            exact List.get_mem _ _ _
      | some v =>
          simp only [generate_session_id, hl] at h
          exact ih (fun d hd => hlen d (List.mem_cons_of_mem _ hd)) h

/-- C5 witness: with an empty registry and the draws 0..5 the generator
returns "ABCDEF", a fresh 6-character code over the restricted alphabet. -/
theorem C5_generate_session_id_witness :
    ("ABCDEF" : String).length = 6
    ∧ (∀ c ∈ ("ABCDEF" : String).toList, c ∈ alphaChars)
    ∧ lookupSession [] "ABCDEF" = none
    ∧ alphaChars.length = 32 ∧ alphaChars.Nodup
    ∧ 'I' ∉ alphaChars ∧ 'O' ∉ alphaChars ∧ '1' ∉ alphaChars ∧ '0' ∉ alphaChars :=
  C5_generate_session_id [] [[0, 1, 2, 3, 4, 5]] "ABCDEF" (by decide) (by decide)

/-- C8: for an existing session, api_list_files reports exactly the entries
whose backing object is present on disk: every entry whose object is present
appears, every reported view comes from an entry whose object is present, and
entries with a missing object are silently excluded rather than reported as
an error (the result is some list, not a failure). -/
theorem C8_api_list_files (st : AppState) (sid : String) (s : Session) (now : Nat)
    (h : lookupSession st.sessions sid = some s) :
    ∃ l, (api_list_files sid now st).1 = some l
      ∧ (∀ f ∈ s.files, (s.dir ++ [f.saved_name]) ∈ st.disk → toView f ∈ l)
      ∧ (∀ v ∈ l, ∃ f ∈ s.files,
          (s.dir ++ [f.saved_name]) ∈ st.disk ∧ v = toView f) := by
  refine ⟨(s.files.filter
      (fun f => decide ((s.dir ++ [f.saved_name]) ∈ st.disk))).map toView,
    by simp [api_list_files, h], ?_, ?_⟩
  · intro f hf hdisk
    exact List.mem_map.mpr ⟨f, List.mem_filter.mpr ⟨hf, by simpa using hdisk⟩, rfl⟩
  · intro v hv
    rcases List.mem_map.mp hv with ⟨f, hf, hvf⟩
    have hmem := List.mem_filter.mp hf
    exact ⟨f, hmem.1, by simpa using hmem.2, hvf.symm⟩

/-- C8 witness: on the concrete state the listing succeeds and the reported
views are exactly those of entries backed on disk. -/
theorem C8_api_list_files_witness :
    ∃ l, (api_list_files "ABCDEF" 3 exState).1 = some l
      ∧ (∀ f ∈ exSession.files,
          (exSession.dir ++ [f.saved_name]) ∈ exState.disk → toView f ∈ l)
      ∧ (∀ v ∈ l, ∃ f ∈ exSession.files,
          (exSession.dir ++ [f.saved_name]) ∈ exState.disk ∧ v = toView f) :=
  C8_api_list_files exState "ABCDEF" exSession 3 (by decide)

/-- C2: for a deliver call that opened the stream for path p, one run of the
close-time cleanup yields a state in which the backing object p no longer
exists on storage, the session's file sequence holds no entry with that file
id, a subsequent download of the same file id ends in a NotFound exit, and no
view with that file id appears in the file listing. -/
theorem C2_download_cleanup (st st1 : AppState) (sid fid : String)
    (p : List String) (n1 n2 n3 n4 : Nat)
    (hdl : download_file sid fid n1 st = (.ok p, st1)) :
    p ∉ (cleanup_on_close sid fid p n2 st1).disk
    ∧ (∀ s2, lookupSession (cleanup_on_close sid fid p n2 st1).sessions sid = some s2 →
        ∀ f ∈ s2.files, f.id ≠ fid)
    ∧ isNotFound (download_file sid fid n3 (cleanup_on_close sid fid p n2 st1)).1 = true
    ∧ (∀ l, (api_list_files sid n4 (cleanup_on_close sid fid p n2 st1)).1 = some l →
        ∀ v ∈ l, v.id ≠ fid) := by
  have hupd : lookupSession (cleanup_on_close sid fid p n2 st1).sessions sid
      = (lookupSession st1.sessions sid).map
          (fun s => { s with
            files := s.files.filter (fun f => decide (f.id ≠ fid)),
            last_activity := n2 }) :=
    lookupSession_update_self _ _ _
  have hids : ∀ s2,
      lookupSession (cleanup_on_close sid fid p n2 st1).sessions sid = some s2 →
      ∀ f ∈ s2.files, f.id ≠ fid := by
    intro s2 h2 f hf
    rw [hupd] at h2
    cases hl1 : lookupSession st1.sessions sid with
    | none => rw [hl1] at h2; simp at h2
    | some s =>
        rw [hl1] at h2
        simp only [Option.map_some', Option.some.injEq] at h2
        rw [← h2] at hf
        have := (List.mem_filter.mp hf).2
        simpa using this
  refine ⟨?_, hids, ?_, ?_⟩
  · intro hp
    have := (List.mem_filter.mp hp).2
    simp at this
  · cases h2 : lookupSession (cleanup_on_close sid fid p n2 st1).sessions sid with
    | none => simp [download_file, h2, isNotFound]
    | some s2 =>
        have hfind : s2.files.find? (fun f => f.id == fid) = none := by
          rw [List.find?_eq_none]
          intro f hf
          simpa using hids s2 h2 f hf
        simp [download_file, h2, hfind, isNotFound]
  · intro l hl v hv
    cases h2 : lookupSession (cleanup_on_close sid fid p n2 st1).sessions sid with
    | none => simp [api_list_files, h2] at hl
    | some s2 =>
        simp only [api_list_files, h2, Option.some.injEq] at hl
        rw [← hl] at hv
        rcases List.mem_map.mp hv with ⟨f, hf, hvf⟩
        have hf2 : f ∈ s2.files := (List.mem_filter.mp hf).1
        have hne : f.id ≠ fid := hids s2 h2 f hf2
        rw [← hvf]
        simpa [toView] using hne

/-- C2 witness: on the concrete state the download opens the stream; after
one run of the cleanup the object is gone, the entry is gone, and the next
download of the same id is a NotFound. -/
theorem C2_download_cleanup_witness :
    ["tmp", "sessions", "ABCDEF", "a1b2.pdf"]
        ∉ (cleanup_on_close "ABCDEF" "f1" ["tmp", "sessions", "ABCDEF", "a1b2.pdf"] 2
            (download_file "ABCDEF" "f1" 1 exState).2).disk
    ∧ (∀ s2, lookupSession (cleanup_on_close "ABCDEF" "f1"
          ["tmp", "sessions", "ABCDEF", "a1b2.pdf"] 2
          (download_file "ABCDEF" "f1" 1 exState).2).sessions "ABCDEF" = some s2 →
        ∀ f ∈ s2.files, f.id ≠ "f1")
    ∧ isNotFound (download_file "ABCDEF" "f1" 3
        (cleanup_on_close "ABCDEF" "f1" ["tmp", "sessions", "ABCDEF", "a1b2.pdf"] 2
          (download_file "ABCDEF" "f1" 1 exState).2)).1 = true
    ∧ (∀ l, (api_list_files "ABCDEF" 4
        (cleanup_on_close "ABCDEF" "f1" ["tmp", "sessions", "ABCDEF", "a1b2.pdf"] 2
          (download_file "ABCDEF" "f1" 1 exState).2)).1 = some l →
        ∀ v ∈ l, v.id ≠ "f1") :=
  C2_download_cleanup exState (download_file "ABCDEF" "f1" 1 exState).2 "ABCDEF" "f1"
    ["tmp", "sessions", "ABCDEF", "a1b2.pdf"] 1 2 3 4 (by decide)

/-- A 404 exit's observed response is the handler's fixed response,
independent of the internal abort description. -/
theorem observed_of_notFound (a : Bool) (o : DlOutcome) (h : isNotFound o = true) :
    observedResponse a o = handle_not_found a := by
  cases o with
  | notFound d => rfl
  | invalidPath d => simp [isNotFound] at h
  | ok p => simp [isNotFound] at h

/-- C9: any two download requests that end in a 404 exit — in particular one
for an already-consumed file (entry present with its backing object gone, or
entry already removed) and one for a file id that never existed — produce
the same observable response: the registered 404 handler drops the differing
internal descriptions, so the outcome reveals nothing about whether the file
ever existed. -/
theorem C9_notfound_indistinguishable (a : Bool) (st1 st2 : AppState)
    (sid1 fid1 : String) (n1 : Nat) (sid2 fid2 : String) (n2 : Nat)
    (h1 : isNotFound (download_file sid1 fid1 n1 st1).1 = true)
    (h2 : isNotFound (download_file sid2 fid2 n2 st2).1 = true) :
    observedResponse a (download_file sid1 fid1 n1 st1).1
      = observedResponse a (download_file sid2 fid2 n2 st2).1 := by
  rw [observed_of_notFound a _ h1, observed_of_notFound a _ h2]

/-- A session whose file entry is still listed but whose backing object is
gone: the consumed-file situation of C9. -/
def exStateConsumed : AppState :=
  { sessions := [("ABCDEF", exSession)], disk := [] }

/-- A session that never held the requested file id. -/
def exSessionEmpty : Session :=
  { id := "GHJKLM", dir := ["tmp", "sessions", "GHJKLM"], created_at := 0,
    last_activity := 0, files := [] }

/-- A registry whose only session has no files at all. -/
def exStateNoFile : AppState :=
  { sessions := [("GHJKLM", exSessionEmpty)], disk := [] }

/-- C9 witness: a consumed file and a never-existing file produce exactly the
same observable 404 response. -/
theorem C9_notfound_indistinguishable_witness :
    observedResponse true (download_file "ABCDEF" "f1" 1 exStateConsumed).1
      = observedResponse true (download_file "GHJKLM" "zz" 1 exStateNoFile).1 :=
  C9_notfound_indistinguishable true exStateConsumed exStateNoFile
    "ABCDEF" "f1" 1 "GHJKLM" "zz" 1 (by decide) (by decide)

/-- C10: the close-time cleanup touches only the delivered file's entry and
its session's last_activity: every other session keeps its binding, the key
set of the registry is unchanged (so the session stays registered even when
its file list becomes empty), the delivered session's file list becomes the
original one filtered by the delivered id (all other entries kept in their
original order), and the only disk change is the removal of the delivered
path. -/
theorem C10_cleanup_frame (st : AppState) (sid fid : String) (p : List String)
    (now : Nat) :
    (∀ sid2, sid2 ≠ sid →
        lookupSession (cleanup_on_close sid fid p now st).sessions sid2
          = lookupSession st.sessions sid2)
    ∧ (∀ s, lookupSession st.sessions sid = some s →
        lookupSession (cleanup_on_close sid fid p now st).sessions sid
          = some { s with
              files := s.files.filter (fun f => decide (f.id ≠ fid)),
              last_activity := now })
    ∧ (cleanup_on_close sid fid p now st).sessions.map Prod.fst
        = st.sessions.map Prod.fst
    ∧ p ∉ (cleanup_on_close sid fid p now st).disk
    ∧ (∀ q, q ≠ p →
        ((q ∈ (cleanup_on_close sid fid p now st).disk) ↔ q ∈ st.disk)) := by
  refine ⟨?_, ?_, ?_, ?_, ?_⟩
  · intro sid2 h2
    exact lookupSession_update_other _ _ _ _ h2
  · intro s hs
    have h := lookupSession_update_self st.sessions sid
      (fun s0 => { s0 with
        files := s0.files.filter (fun f => decide (f.id ≠ fid)),
        last_activity := now })
    rw [hs] at h
    simp only [Option.map_some'] at h
    exact h
  · exact updateSession_keys _ _ _
  · intro hp
    have := (List.mem_filter.mp hp).2
    simp at this
  · intro q hq
    constructor
    · intro hin
      exact (List.mem_filter.mp hin).1
    · intro hin
      exact List.mem_filter.mpr ⟨hin, by simpa using hq⟩

/-- A second session used to witness the frame property of the cleanup. -/
def exSessionB : Session :=
  { id := "PQRSTU", dir := ["tmp", "sessions", "PQRSTU"], created_at := 0,
    last_activity := 5, files := [] }

/-- A registry holding two sessions and two backing objects. -/
def exStateTwo : AppState :=
  { sessions := [("ABCDEF", exSession), ("PQRSTU", exSessionB)],
    disk := [["tmp", "sessions", "ABCDEF", "a1b2.pdf"],
             ["tmp", "sessions", "PQRSTU", "zz.txt"]] }

/-- C10 witness: cleaning up the delivered file of the first session leaves
the second session's binding, the registry's key set, and the unrelated disk
object in place, while the delivered path is gone. -/
theorem C10_cleanup_frame_witness :
    lookupSession (cleanup_on_close "ABCDEF" "f1"
        ["tmp", "sessions", "ABCDEF", "a1b2.pdf"] 9 exStateTwo).sessions "PQRSTU"
      = lookupSession exStateTwo.sessions "PQRSTU"
    ∧ (cleanup_on_close "ABCDEF" "f1"
        ["tmp", "sessions", "ABCDEF", "a1b2.pdf"] 9 exStateTwo).sessions.map Prod.fst
      = exStateTwo.sessions.map Prod.fst
    ∧ ["tmp", "sessions", "ABCDEF", "a1b2.pdf"]
        ∉ (cleanup_on_close "ABCDEF" "f1"
            ["tmp", "sessions", "ABCDEF", "a1b2.pdf"] 9 exStateTwo).disk
    ∧ (["tmp", "sessions", "PQRSTU", "zz.txt"]
        ∈ (cleanup_on_close "ABCDEF" "f1"
            ["tmp", "sessions", "ABCDEF", "a1b2.pdf"] 9 exStateTwo).disk
      ↔ ["tmp", "sessions", "PQRSTU", "zz.txt"] ∈ exStateTwo.disk) :=
  ⟨(C10_cleanup_frame exStateTwo "ABCDEF" "f1"
      ["tmp", "sessions", "ABCDEF", "a1b2.pdf"] 9).1 "PQRSTU" (by decide),
   (C10_cleanup_frame exStateTwo "ABCDEF" "f1"
      ["tmp", "sessions", "ABCDEF", "a1b2.pdf"] 9).2.2.1,
   (C10_cleanup_frame exStateTwo "ABCDEF" "f1"
      ["tmp", "sessions", "ABCDEF", "a1b2.pdf"] 9).2.2.2.1,
   (C10_cleanup_frame exStateTwo "ABCDEF" "f1"
      ["tmp", "sessions", "ABCDEF", "a1b2.pdf"] 9).2.2.2.2
     ["tmp", "sessions", "PQRSTU", "zz.txt"] (by decide)⟩
